import Mathlib

/-!
Verification development for the CustomCTkDialog repository
(CustomCTkDialog/custom_ctk_dialog.py).

The dialog module is a single-threaded, cooperatively scheduled UI
controller.  We embed its decision logic shallowly:

* Python strings are Lean `String` (or `List Char` where character-level
  slicing matters); `str.strip()` is modelled by `py_strip`, which removes
  whitespace characters from both ends.
* Fallible code paths are `Except String` values whose `.error` payload is
  the message of the `ValueError` the source raises.
* The blocking wait loop `Dialog._block_process_until_result` (lines
  250-261) repeatedly pumps the toolkit event loop until the shared result
  slot is populated; we model a run of the dialog as a fold over a finite
  list of user events.  An exception raised inside a bound callback or
  button command is caught by the toolkit callback wrapper inside
  `app.update()` and reported as a printed traceback: the state is left
  unchanged and the loop keeps waiting, so a raising handler is a no-op
  step here.  Only an exception raised by `app.update()` itself — the
  TclError produced once a chrome close has destroyed a window with no
  `WM_DELETE_WINDOW` handler — reaches the loop and triggers its
  `except Exception: break`; that path is modelled by a `broken` flag,
  after which the epilogue runs with the slot still empty.
* The `selected_indices` Python `set` is modelled at two levels: its
  membership content (an insertion-ordered duplicate-free `List ℕ`, the
  exact observable semantics of `set.add` / `set.remove` / `in` / `len`),
  and its iteration order (`cpython_iter_order`), a simulation of the
  CPython hash table the comprehension at lines 526/561 iterates:
  table of 8 slots, slot index `hash & 7` with `hash n = n`, collision
  step `perturb >>= 5; i = (i*5 + 1 + perturb) & 7` as in CPython
  setobject.c (valid for tables below the resize threshold and histories
  without removals, which covers every statement proved here).
-/

/-- Whitespace trimming used to model the Python method `str.strip()`
(and `.strip()` on subprocess output). -/
def py_strip (s : String) : String :=
  String.mk ((((s.data.dropWhile Char.isWhitespace).reverse).dropWhile Char.isWhitespace).reverse)

/-- Values the shared result slot of `Dialog._base_input_dialog` can hold:
the initial `None`, the fresh cancellation sentinel `CANCEL_SIGNAL = object()`
(line 293), a Python string written by `_do_confirm` in input mode, or a
boolean written in confirm mode.  The Python identity test
`final_value is CANCEL_SIGNAL` (line 359) is constructor equality here,
since `object()` is distinct from every string and boolean. -/
inductive PyVal where
  | pynone : PyVal
  | sentinel : PyVal
  | str (s : String) : PyVal
  | bool (b : Bool) : PyVal
deriving DecidableEq, Repr

/-- Python truthiness negation `not v` for the values a result slot can hold:
`None` and `False` and the empty string are falsy; the sentinel object,
`True` and non-empty strings are truthy. -/
def py_not : PyVal → Bool
  | .pynone => true
  | .sentinel => false
  | .str s => s = ""
  | .bool b => !b

/-- Python comparison `v != ""`: only the empty string itself is equal to
the empty string (comparison across types yields inequality). -/
def py_ne_empty : PyVal → Bool
  | .str s => s != ""
  | _ => true

/-- Python truthiness `bool(v)` as used by `return bool(final_value)`
(line 369). -/
def py_truthy (v : PyVal) : Bool := !(py_not v)

/-- Message check of `Dialog._base_input_dialog` lines 290-291: the Python
condition `not message` holds for the argument `None` and for the empty
string. -/
def py_falsy_msg : Option String → Bool
  | none => true
  | some s => s = ""

/-- Truncation helper `Dialog._truncate_message` (lines 222-230): a message
of at most `max_chars` characters is returned unchanged, otherwise the
slice `message[:max_chars - 3]` is returned with `"..."` appended.  Python
strings are sequences of code points, modelled as `List Char`. -/
def truncate_message (message : List Char) (max_chars : Nat) : List Char :=
  if message.length ≤ max_chars then message
  else message.take (max_chars - 3) ++ ['.', '.', '.']

/-- Fixed display bound `MESSAGE_MAX_LENGTH` (line 14). -/
def MESSAGE_MAX_LENGTH : Nat := 500

section FolderPicker

/-- Values decoded from JSON text, the codomain of the standard library
call `json.loads` at line 81. -/
inductive PyJson where
  | null : PyJson
  | bool (b : Bool) : PyJson
  | num (n : Int) : PyJson
  | str (s : String) : PyJson
  | arr (elems : List PyJson) : PyJson
  | obj (fields : List (String × PyJson)) : PyJson

/-- Outcome of the `subprocess.run` call in `folder_picker` (lines 65-71).
Because the call passes `check=True`, a completed process is only seen on
exit code zero; a non-zero exit surfaces as `CalledProcessError`, and a
missing executable as `FileNotFoundError`. -/
inductive RunOutcome where
  | fileNotFound : RunOutcome
  | calledProcessError (stderr : Option String) : RunOutcome
  | success (stdout stderr : String) : RunOutcome
deriving DecidableEq, Repr

/-- Result-and-log semantics of `folder_picker` (lines 64-94), parameterised
by the behaviour `loads` of the external JSON decoder (`none` models a
`json.JSONDecodeError`).  The first component is the returned list, the
second the messages printed to the log.  The function is total: every
branch of the source returns normally after its `except` handler. -/
def folder_picker_run (loads : String → Option PyJson) :
    RunOutcome → List PyJson × List String
  | .fileNotFound => ([], ["Picker EXE not found."])
  | .calledProcessError stderr =>
      ([], [match stderr with
            | some e =>
                if e = "" then "Error running folder picker: CalledProcessError"
                else "Error running folder picker: " ++ py_strip e
            | none => "Error running folder picker: CalledProcessError"])
  | .success stdout stderr =>
      let log0 : List String :=
        if stderr = "" then [] else ["Picker STDERR: " ++ py_strip stderr]
      let json_output := py_strip stdout
      if json_output = "" then ([], log0)
      else
        match loads json_output with
        | none => ([], log0 ++ ["Picker output was not valid JSON."])
        | some (.arr xs) => (xs, log0)
        | some _ => ([], log0)

/-- Minimal concrete decoder used to instantiate theorems about
`folder_picker_run` at specific inputs: it recognises the literal text
of an empty JSON array and rejects everything else. -/
def json_loads_example : String → Option PyJson :=
  fun s => if s = "[]" then some (.arr []) else none

end FolderPicker

section BaseInputDialog

/-- Terminal user interactions of `_base_input_dialog`: the confirm button
or Return key (carrying the text of the entry widget at that moment), the
cancel button or Escape key, and the window-manager close handled by the
`WM_DELETE_WINDOW` protocol (lines 335-347).  Every one of these writes the
result slot, ending the wait loop. -/
inductive BaseEvent where
  | confirm (entry : String) : BaseEvent
  | returnKey (entry : String) : BaseEvent
  | cancelBtn : BaseEvent
  | escapeKey : BaseEvent
  | chromeClose : BaseEvent
deriving DecidableEq, Repr

/-- Value written to the result slot by the callback an event triggers
(`_do_confirm` lines 309-314, `_do_cancel` lines 306-307).  In input mode
the confirmed value is `input_entry.get().strip()`; the source expression
`value if value else ""` is the identity on strings, since only the empty
string is falsy and it is mapped to itself. -/
def base_event_value (is_input : Bool) : BaseEvent → PyVal
  | .confirm entry | .returnKey entry =>
      if is_input then .str (py_strip entry) else .bool true
  | .cancelBtn | .escapeKey | .chromeClose => .sentinel

/-- Wait-loop semantics for the base dialog: the slot starts at `None` and
the loop returns as soon as a callback populates it, so the final slot
value is decided by the first event; `none` means the event stream ended
with the dialog still waiting. -/
def run_base (is_input : Bool) : List BaseEvent → Option PyVal
  | [] => none
  | e :: _ => some (base_event_value is_input e)

/-- Epilogue of `_base_input_dialog` (lines 354-369): the final slot value
is classified against the cancellation sentinel by identity; the sentinel
raises in input mode and collapses to `False` in confirm mode; otherwise
input mode returns the value (raising only on a value that is falsy yet
not the empty string, which no string is) and confirm mode returns its
truthiness. -/
def base_finish (is_input : Bool) (final_value : PyVal) : Except String PyVal :=
  if final_value = .sentinel then
    if is_input then .error "Input required: Dialog was canceled."
    else .ok (.bool false)
  else if is_input then
    if py_not final_value && py_ne_empty final_value then
      .error "Input required: blank input."
    else .ok final_value
  else .ok (.bool (py_truthy final_value))

/-- Whether `_base_input_dialog` reaches the `_create_new_window` call at
line 295: the message validation at lines 290-291 precedes it and raises
on a falsy message. -/
def base_input_creates_window (message : Option String) : Bool :=
  !py_falsy_msg message

/-- End-to-end model of `_base_input_dialog`: validate the message (lines
290-291), then run the wait loop over the events and classify the result.
The outer `Option` distinguishes a call that returns or raises (`some`)
from one still blocked waiting for input (`none`). -/
def base_input_dialog (message : Option String) (is_input : Bool)
    (events : List BaseEvent) : Option (Except String PyVal) :=
  if py_falsy_msg message then
    some (.error "A message must be provided for input dialogs.")
  else (run_base is_input events).map (base_finish is_input)

/-- Public wrapper `Dialog.prompt` (lines 371-381). -/
def dialog_prompt (message : Option String) (events : List BaseEvent) :
    Option (Except String PyVal) :=
  base_input_dialog message true events

/-- Public wrapper `Dialog.confirm` (lines 383-392). -/
def dialog_confirm (message : Option String) (events : List BaseEvent) :
    Option (Except String PyVal) :=
  base_input_dialog message false events

/-- Message validation of `_base_alert_dialog` (lines 576-577): only the
literal `None` is rejected; the empty string passes. -/
def alert_check (message : Option String) : Except String Unit :=
  if message = none then .error "Alert message must be provided." else .ok ()

/-- Whether `_base_alert_dialog` reaches its `_create_new_window` call at
line 579: only a `None` message stops it. -/
def alert_creates_window (message : Option String) : Bool :=
  message.isSome

end BaseInputDialog

section SelectionDialog

/-- Keyboard navigation handler `handle_move_up` (lines 494-498): Python
computes `(active_focus_index - 1) % len(selections)`, a floored modulus
that is total only for a non-empty candidate list; a zero divisor raises
`ZeroDivisionError`, modelled by `none`. -/
def handle_move_up (n i : Nat) : Option Nat :=
  if n = 0 then none else some ((((i : Int) - 1) % (n : Int)).toNat)

/-- Keyboard navigation handler `handle_move_down` (lines 500-504), with
the same zero-divisor failure mode as `handle_move_up`. -/
def handle_move_down (n i : Nat) : Option Nat :=
  if n = 0 then none else some ((((i : Int) + 1) % (n : Int)).toNat)

/-- Membership content of the toggle handler `handle_toggle_selection`
(lines 478-492) on the insertion-ordered view of `selected_indices`:
multi-select strictly toggles membership (`remove` when present, `add`
when absent); single-select clears the set and inserts the index. -/
def handle_toggle_selection (multiple : Bool) (selected : List Nat)
    (index_to_toggle : Nat) : List Nat :=
  if multiple then
    if index_to_toggle ∈ selected then selected.erase index_to_toggle
    else selected ++ [index_to_toggle]
  else [index_to_toggle]

/-- One step of the CPython set probe sequence for hash tables of eight
slots: shift the perturb, then jump to `(i*5 + 1 + perturb) & 7`
(setobjectc collision resolution; the linear-probe run is skipped at this
table size because `i + LINEAR_PROBES <= mask` never holds). -/
def probe_insert (x : Nat) : Nat → Nat → Nat → List (Option Nat) → List (Option Nat)
  | 0, _, _, t => t
  | fuel + 1, i, perturb, t =>
      match t.getD i none with
      | none => t.set i (some x)
      | some k =>
          if k = x then t
          else probe_insert x fuel ((5 * i + 1 + perturb / 32) % 8) (perturb / 32) t

/-- Insertion of a small integer into the CPython set table: start the
probe at `hash & mask` with `hash n = n` and initial perturb equal to the
hash. -/
def table_add (t : List (Option Nat)) (x : Nat) : List (Option Nat) :=
  probe_insert x 64 (x % 8) x t

/-- Empty CPython set table of eight slots. -/
def empty_table : List (Option Nat) := List.replicate 8 none

/-- Hash table reached by adding the elements of `xs` in order. -/
def cpython_table (xs : List Nat) : List (Option Nat) :=
  xs.foldl table_add empty_table

/-- Iteration order of a CPython set whose elements were inserted in the
order given by `xs`: a set iterator scans the table slots from low to
high. -/
def cpython_iter_order (xs : List Nat) : List Nat :=
  (cpython_table xs).filterMap id

/-- Python indexing `selections[index]`, total here because every index a
reachable selection state stores is a position of an existing item label. -/
def py_get (selections : List String) (index : Nat) : String :=
  selections.getD index ""

/-- Comprehension `[selections[index] for index in selected_indices]`
(lines 526 and 561): the set is iterated in CPython table order. -/
def py_list_comp (selections : List String) (selected : List Nat) : List String :=
  (cpython_iter_order selected).map (py_get selections)

/-- Confirmation handler `perform_confirmation` (lines 522-526): raises
when the dialog is not optional and nothing is selected, otherwise stores
the comprehension over the selected indices. -/
def perform_confirmation (optional : Bool) (selections : List String)
    (selected : List Nat) : Except String (List String) :=
  if !optional && selected.isEmpty then .error "Selection required."
  else .ok (py_list_comp selections selected)

/-- Caller-chosen configuration of `Dialog.selection` (lines 394-410). -/
structure SelConfig where
  multiple : Bool
  optional : Bool
  selections : List String
deriving DecidableEq, Repr

/-- Result slot contents for the selection dialog: the fresh sentinel
written by `perform_cancellation` (lines 528-530) or the item list written
by `perform_confirmation`. -/
inductive SelVal where
  | sentinel : SelVal
  | items (xs : List String) : SelVal
deriving DecidableEq, Repr

/-- Mutable state closed over by the selection dialog callbacks: the
selected indices (insertion-ordered content of the Python set), the
focused index, the result slot, and whether the wait loop has broken
because an exception escaped an event-processing step. -/
structure SelState where
  selected : List Nat
  focus : Nat
  slot : Option SelVal
  broken : Bool
deriving DecidableEq, Repr

/-- Initial selection state (lines 425-427): empty set, focus zero, empty
result slot. -/
def sel_init : SelState := ⟨[], 0, none, false⟩

/-- User interactions bound by `Dialog.selection` (lines 519 and 543-548):
mouse click on an item, Space on the focused item, Up and Down arrows,
Return or the confirm button, Escape or the cancel button, and closing the
window through the OS chrome.  Unlike the base dialogs, `selection`
installs no `WM_DELETE_WINDOW` handler, so a chrome close destroys the
window and the next `app.update()` raises, breaking the wait loop. -/
inductive SelEvent where
  | click (i : Nat) : SelEvent
  | space : SelEvent
  | up : SelEvent
  | down : SelEvent
  | returnKey : SelEvent
  | confirmBtn : SelEvent
  | cancelBtn : SelEvent
  | escapeKey : SelEvent
  | chromeClose : SelEvent
deriving DecidableEq, Repr

/-- Effect of one event on the selection state.  A handler that raises
(`perform_confirmation` on an empty non-optional selection, or the
navigation handlers on an empty candidate list) raises before any state
assignment; the toolkit callback wrapper catches the exception inside
`app.update()` and reports it, so the step leaves the state unchanged and
the dialog stays open.  A chrome close destroys the window (no
`WM_DELETE_WINDOW` handler is installed by `selection`), making the next
`app.update()` itself raise; only that exception reaches the wait loop,
whose `except Exception: break` at lines 256-261 is modelled by the
`broken` flag. -/
def sel_step (cfg : SelConfig) (st : SelState) : SelEvent → SelState
  | .click i =>
      { st with focus := i,
                selected := handle_toggle_selection cfg.multiple st.selected i }
  | .space =>
      { st with selected := handle_toggle_selection cfg.multiple st.selected st.focus }
  | .up =>
      match handle_move_up cfg.selections.length st.focus with
      | some j => { st with focus := j }
      | none => st
  | .down =>
      match handle_move_down cfg.selections.length st.focus with
      | some j => { st with focus := j }
      | none => st
  | .returnKey | .confirmBtn =>
      match perform_confirmation cfg.optional cfg.selections st.selected with
      | .ok xs => { st with slot := some (.items xs) }
      | .error _ => st
  | .cancelBtn | .escapeKey => { st with slot := some .sentinel }
  | .chromeClose => { st with broken := true }

/-- Wait loop of the selection dialog: events are processed while the slot
is empty and the loop has not broken. -/
def run_selection_state (cfg : SelConfig) (st : SelState) : List SelEvent → SelState
  | [] => st
  | e :: es =>
      if st.slot.isSome || st.broken then st
      else run_selection_state cfg (sel_step cfg st e) es

/-- Epilogue of `Dialog.selection` (lines 556-561): a sentinel in the slot
returns `None`; any other final slot value, including the `None` left by a
broken wait loop, falls through to the comprehension over the current
selected indices.  The outer `Option` is `none` when the dialog is still
blocked waiting. -/
def selection_result (cfg : SelConfig) (events : List SelEvent) :
    Option (Except String (Option (List String))) :=
  let st := run_selection_state cfg sel_init events
  match st.slot with
  | some .sentinel => some (.ok none)
  | some (.items _) => some (.ok (some (py_list_comp cfg.selections st.selected)))
  | none =>
      if st.broken then some (.ok (some (py_list_comp cfg.selections st.selected)))
      else none

/-- Whether `Dialog.selection` reaches its `_create_new_window` call at
line 421: only a `None` candidate list stops it; the message is never
validated. -/
def selection_creates_window (message : Option String)
    (selections : Option (List String)) : Bool :=
  selections.isSome

/-- End-to-end model of `Dialog.selection`: the argument check at lines
417-418 rejects a `None` candidate list, then the dialog runs to a result.
The message parameter is carried but never validated, exactly as in the
source. -/
def dialog_selection (message : Option String) (selections : Option (List String))
    (multiple optional : Bool) (events : List SelEvent) :
    Option (Except String (Option (List String))) :=
  match selections with
  | none => some (.error "The selections parameter cannot be None.")
  | some sels => selection_result ⟨multiple, optional, sels⟩ events

end SelectionDialog

/-!
Theorems.  Each claim of the specification is settled below; witnesses
instantiate the quantified theorems at concrete inputs.
-/

/-- Helper: truncation is the identity on messages within the bound. -/
lemma truncate_message_of_le (m : List Char) (h : m.length ≤ 500) :
    truncate_message m 500 = m := by
  unfold truncate_message
  rw [if_pos h]

/-- C6: a message of at most 500 characters is displayed unchanged, and a
longer message is displayed as its first 497 characters followed by an
ellipsis; the transformation is a total function and never errors. -/
theorem truncate_message_spec (m : List Char) :
    (m.length ≤ 500 → truncate_message m 500 = m) ∧
    (500 < m.length → truncate_message m 500 = m.take 497 ++ ['.', '.', '.']) := by
  constructor
  · intro h
    exact truncate_message_of_le m h
  · intro h
    unfold truncate_message
    rw [if_neg (by omega)]

/-- Witness for C6: the two-character message is preserved, and a
501-character message is truncated to 497 characters plus the ellipsis. -/
theorem truncate_message_spec_witness :
    (['h', 'i'].length ≤ 500 ∧ truncate_message ['h', 'i'] 500 = ['h', 'i']) ∧
    (500 < (List.replicate 501 'a').length ∧
      truncate_message (List.replicate 501 'a') 500
        = (List.replicate 501 'a').take 497 ++ ['.', '.', '.']) :=
  ⟨⟨by decide, (truncate_message_spec ['h', 'i']).1 (by decide)⟩,
   ⟨by rw [List.length_replicate]; omega,
    (truncate_message_spec (List.replicate 501 'a')).2
      (by rw [List.length_replicate]; omega)⟩⟩

/-- C10: message truncation bounds every output at 500 characters and is
idempotent. -/
theorem truncate_message_idempotent (m : List Char) :
    (truncate_message m 500).length ≤ 500 ∧
    truncate_message (truncate_message m 500) 500 = truncate_message m 500 := by
  have hlen : (truncate_message m 500).length ≤ 500 := by
    unfold truncate_message
    by_cases h : m.length ≤ 500
    · rw [if_pos h]; exact h
    · rw [if_neg h]
      have h497 : (m.take 497).length = 497 := by
        rw [List.length_take]
        omega
      simp [h497]
  exact ⟨hlen, truncate_message_of_le _ hlen⟩

/-- C9 counterexample: the selection dialog accepts the empty candidate
list (only None is rejected), yet on an empty list the Up and Down
handlers divide by zero (`none` models the ZeroDivisionError raised by
`% len(selections)` with a zero count).  The toolkit callback wrapper
reports and swallows the error inside `app.update()`, so the dialog stays
open: the pressed key is a failed no-op and the call has not returned
(model result `none`).  This refutes the claim that the focus moves are
total for every accepted candidate list. -/
theorem move_focus_zero_counterexample :
    handle_move_up 0 0 = none ∧ handle_move_down 0 0 = none ∧
    selection_creates_window (some "m") (some []) = true ∧
    dialog_selection (some "m") (some []) false false [SelEvent.up]
      = none :=
  ⟨rfl, rfl, rfl, rfl⟩

/-- C9 amended: for every non-empty candidate list the Up and Down focus
moves are total and circular, Down mapping i to (i+1) mod n and Up mapping
i to (i-1) mod n (equal to (i+n-1) mod n over the naturals), and the new
focus always lies below the candidate count; with an empty candidate list
both handlers raise ZeroDivisionError. -/
theorem move_focus_circular (n i : Nat) (h : 0 < n) :
    handle_move_up n i = some ((i + n - 1) % n) ∧
    handle_move_down n i = some ((i + 1) % n) ∧
    (i + n - 1) % n < n ∧ (i + 1) % n < n := by
  have hne : n ≠ 0 := Nat.pos_iff_ne_zero.mp h
  refine ⟨?_, ?_, Nat.mod_lt _ h, Nat.mod_lt _ h⟩
  · unfold handle_move_up
    rw [if_neg hne]
    congr 1
    have hcast : ((i + n - 1 : Nat) : Int) = (i : Int) + n - 1 := by omega
    have hmod : (((i + n - 1) % n : Nat) : Int) = ((i + n - 1 : Nat) : Int) % (n : Int) := by
      push_cast
      ring_nf
    have hshift : ((i : Int) + n - 1) % (n : Int) = ((i : Int) - 1) % (n : Int) := by
      rw [show (i : Int) + n - 1 = ((i : Int) - 1) + n * 1 by ring,
          Int.add_mul_emod_self_left]
    have : (((i : Int) - 1) % (n : Int)) = (((i + n - 1) % n : Nat) : Int) := by
      rw [hmod, hcast, hshift]
    rw [this]
    exact Int.toNat_natCast _
  · unfold handle_move_down
    rw [if_neg hne]
    congr 1

/-- Witness for C9 amended: on a three-item list, Up from focus 0 wraps to
2 and Down from focus 2 wraps to 0. -/
theorem move_focus_circular_witness :
    (0 < 3 ∧ handle_move_up 3 0 = some ((0 + 3 - 1) % 3)) ∧
    (0 < 3 ∧ handle_move_down 3 2 = some ((2 + 1) % 3)) :=
  ⟨⟨by decide, (move_focus_circular 3 0 (by decide)).1⟩,
   ⟨by decide, (move_focus_circular 3 2 (by decide)).2.1⟩⟩

/-- C4: the folder picker returns the empty list when the trimmed stdout
is empty, exactly the decoded list when the trimmed stdout decodes to a
JSON array, and the empty list when it decodes to any non-array value;
a missing executable, a non-zero exit and malformed JSON are each reported
to the log and yield the empty list, and since `folder_picker_run` is a
total function no exception escapes to the caller in any of these cases. -/
theorem folder_picker_contract (loads : String → Option PyJson) :
    (∀ stdout stderr, py_strip stdout = "" →
        (folder_picker_run loads (.success stdout stderr)).1 = []) ∧
    (∀ stdout stderr xs, py_strip stdout ≠ "" →
        loads (py_strip stdout) = some (.arr xs) →
        (folder_picker_run loads (.success stdout stderr)).1 = xs) ∧
    (∀ stdout stderr v, py_strip stdout ≠ "" →
        loads (py_strip stdout) = some v → (∀ xs, v ≠ .arr xs) →
        (folder_picker_run loads (.success stdout stderr)).1 = []) ∧
    (∀ stdout stderr, py_strip stdout ≠ "" → loads (py_strip stdout) = none →
        (folder_picker_run loads (.success stdout stderr)).1 = [] ∧
        "Picker output was not valid JSON."
          ∈ (folder_picker_run loads (.success stdout stderr)).2) ∧
    ((folder_picker_run loads .fileNotFound).1 = [] ∧
        (folder_picker_run loads .fileNotFound).2 ≠ []) ∧
    (∀ stderr, (folder_picker_run loads (.calledProcessError stderr)).1 = []) ∧
    (∀ e, e ≠ "" → (folder_picker_run loads (.calledProcessError (some e))).2
        = ["Error running folder picker: " ++ py_strip e]) := by
  refine ⟨?_, ?_, ?_, ?_, ⟨rfl, by simp [folder_picker_run]⟩, fun stderr => by
      cases stderr <;> simp [folder_picker_run], fun e he => by
      simp [folder_picker_run, he]⟩
  · intro stdout stderr h
    simp [folder_picker_run, h]
  · intro stdout stderr xs h hl
    simp [folder_picker_run, h, hl]
  · intro stdout stderr v h hl hv
    cases v <;> simp [folder_picker_run, h, hl]
    exact absurd rfl (hv _)
  · intro stdout stderr h hl
    simp [folder_picker_run, h, hl]

/-- Witness for C4: concrete runs through the success, malformed-JSON and
non-zero-exit paths of the folder picker, instantiated with the example
decoder. -/
theorem folder_picker_contract_witness :
    (py_strip " " = "" ∧
      (folder_picker_run json_loads_example (.success " " "")).1 = []) ∧
    (py_strip "[]" ≠ "" ∧ json_loads_example (py_strip "[]") = some (.arr []) ∧
      (folder_picker_run json_loads_example (.success "[]" "")).1 = []) ∧
    (py_strip "not json" ≠ "" ∧ json_loads_example (py_strip "not json") = none ∧
      (folder_picker_run json_loads_example (.success "not json" "boom")).1 = [] ∧
      "Picker output was not valid JSON."
        ∈ (folder_picker_run json_loads_example (.success "not json" "boom")).2) ∧
    ("boom" ≠ "" ∧
      (folder_picker_run json_loads_example (.calledProcessError (some "boom"))).2
        = ["Error running folder picker: " ++ py_strip "boom"]) :=
  ⟨⟨by decide, (folder_picker_contract json_loads_example).1 " " "" (by decide)⟩,
   ⟨by decide, by rfl,
    (folder_picker_contract json_loads_example).2.1 "[]" "" [] (by decide) (by rfl)⟩,
   ⟨by decide, by rfl,
    (folder_picker_contract json_loads_example).2.2.2.1 "not json" "boom"
      (by decide) (by rfl)⟩,
   ⟨by decide,
    (folder_picker_contract json_loads_example).2.2.2.2.2.2 "boom" (by decide)⟩⟩

/-- C5: the final result-slot value is classified by constructor identity
against the fresh cancellation sentinel, which equals no string and no
boolean; the sentinel maps to cancellation (an error for prompt, False for
confirm) and every value the dialog callbacks can write maps to the
confirmed outcome — in particular a confirmed empty entry yields the empty
string and confirm acceptance yields True. -/
theorem sentinel_classification :
    (∀ s : String, PyVal.str s ≠ PyVal.sentinel) ∧
    (∀ b : Bool, PyVal.bool b ≠ PyVal.sentinel) ∧
    base_finish true PyVal.sentinel = .error "Input required: Dialog was canceled." ∧
    base_finish false PyVal.sentinel = .ok (.bool false) ∧
    (∀ s : String, base_finish true (.str s) = .ok (.str s)) ∧
    (∀ (entry : String) (events : List BaseEvent),
        dialog_prompt (some "msg") (BaseEvent.confirm entry :: events)
          = some (.ok (.str (py_strip entry)))) ∧
    dialog_prompt (some "msg") [BaseEvent.confirm ""] = some (.ok (.str "")) ∧
    dialog_confirm (some "msg") [BaseEvent.confirm ""] = some (.ok (.bool true)) := by
  have hstr : ∀ s : String, base_finish true (.str s) = .ok (.str s) := by
    intro s
    by_cases hs : s = "" <;>
      simp [base_finish, py_not, py_ne_empty, hs]
  refine ⟨?_, ?_, rfl, rfl, hstr, ?_, rfl, rfl⟩
  · intro s h
    cases h
  · intro b h
    cases h
  · intro entry events
    simp [dialog_prompt, base_input_dialog, py_falsy_msg, run_base,
      base_event_value, hstr]

/-- Helper: a broken wait loop ignores further events. -/
lemma run_selection_state_halt_broken (cfg : SelConfig) (st : SelState)
    (h : st.broken = true) :
    ∀ events, run_selection_state cfg st events = st := by
  intro events
  cases events with
  | nil => rfl
  | cons e es =>
      unfold run_selection_state
      rw [if_pos]
      simp [h]

/-- C2 counterexample: an empty (non-None) message is accepted by both the
alert and the selection dialog; each proceeds to create its window and
raises no InvalidArgument error — the selection dialog simply blocks
waiting for input. -/
theorem empty_message_counterexample :
    alert_check (some "") = .ok () ∧
    alert_creates_window (some "") = true ∧
    selection_creates_window (some "") (some ["a"]) = true ∧
    dialog_selection (some "") (some ["a"]) false false [] = none :=
  ⟨rfl, rfl, rfl, rfl⟩

/-- C2 amended: the shared input dialog behind prompt and confirm rejects
both a None and an empty message with an InvalidArgument error raised
before its window is created, and accepts every non-empty message; the
alert dialog rejects only a None message, accepting the empty string; the
selection dialog never validates the message and always reaches window
creation when the candidate list is not None. -/
theorem message_validation_amended :
    dialog_prompt none [] = some (.error "A message must be provided for input dialogs.") ∧
    dialog_prompt (some "") [] = some (.error "A message must be provided for input dialogs.") ∧
    dialog_confirm none [] = some (.error "A message must be provided for input dialogs.") ∧
    dialog_confirm (some "") [] = some (.error "A message must be provided for input dialogs.") ∧
    base_input_creates_window none = false ∧
    base_input_creates_window (some "") = false ∧
    (∀ m : String, base_input_creates_window (some m) = true ∨ m = "") ∧
    alert_check none = .error "Alert message must be provided." ∧
    alert_creates_window none = false ∧
    alert_check (some "") = .ok () ∧
    (∀ (m : Option String) (sels : List String),
        selection_creates_window m (some sels) = true) := by
  refine ⟨rfl, rfl, rfl, rfl, rfl, rfl, ?_, rfl, rfl, rfl, fun m sels => rfl⟩
  intro m
  by_cases hm : m = ""
  · exact Or.inr hm
  · exact Or.inl (by simp [base_input_creates_window, py_falsy_msg, hm])

/-- Helper: in single-select mode every event leaves at most one selected
index. -/
lemma sel_step_single_len (cfg : SelConfig) (h : cfg.multiple = false)
    (st : SelState) (hst : st.selected.length ≤ 1) (e : SelEvent) :
    (sel_step cfg st e).selected.length ≤ 1 := by
  cases e with
  | click i => simp [sel_step, handle_toggle_selection, h]
  | space => simp [sel_step, handle_toggle_selection, h]
  | up =>
      cases hm : handle_move_up cfg.selections.length st.focus <;>
        simpa [sel_step, hm] using hst
  | down =>
      cases hm : handle_move_down cfg.selections.length st.focus <;>
        simpa [sel_step, hm] using hst
  | returnKey =>
      cases hc : perform_confirmation cfg.optional cfg.selections st.selected <;>
        simpa [sel_step, hc] using hst
  | confirmBtn =>
      cases hc : perform_confirmation cfg.optional cfg.selections st.selected <;>
        simpa [sel_step, hc] using hst
  | cancelBtn => simpa [sel_step] using hst
  | escapeKey => simpa [sel_step] using hst
  | chromeClose => simpa [sel_step] using hst

/-- Helper: the single-select bound is an invariant of the wait loop. -/
lemma run_single_select_len (cfg : SelConfig) (h : cfg.multiple = false) :
    ∀ (events : List SelEvent) (st : SelState), st.selected.length ≤ 1 →
      (run_selection_state cfg st events).selected.length ≤ 1 := by
  intro events
  induction events with
  | nil => intro st hst; exact hst
  | cons e es ih =>
      intro st hst
      show (if st.slot.isSome || st.broken then st
            else run_selection_state cfg (sel_step cfg st e) es).selected.length ≤ 1
      split
      · exact hst
      · exact ih _ (sel_step_single_len cfg h st hst e)

/-- Helper: toggling preserves duplicate-freeness of the selected set. -/
lemma handle_toggle_nodup (multiple : Bool) (s : List Nat) (x : Nat)
    (h : s.Nodup) : (handle_toggle_selection multiple s x).Nodup := by
  unfold handle_toggle_selection
  split
  · split
    · exact h.erase _
    · rename_i hx
      rw [List.nodup_append]
      exact ⟨h, List.nodup_singleton x, by simpa using hx⟩
  · exact List.nodup_singleton x

/-- Helper: every event preserves duplicate-freeness. -/
lemma sel_step_nodup (cfg : SelConfig) (st : SelState) (e : SelEvent)
    (h : st.selected.Nodup) : (sel_step cfg st e).selected.Nodup := by
  cases e with
  | click i => exact handle_toggle_nodup _ _ _ h
  | space => exact handle_toggle_nodup _ _ _ h
  | up =>
      cases hm : handle_move_up cfg.selections.length st.focus <;>
        simpa [sel_step, hm] using h
  | down =>
      cases hm : handle_move_down cfg.selections.length st.focus <;>
        simpa [sel_step, hm] using h
  | returnKey =>
      cases hc : perform_confirmation cfg.optional cfg.selections st.selected <;>
        simpa [sel_step, hc] using h
  | confirmBtn =>
      cases hc : perform_confirmation cfg.optional cfg.selections st.selected <;>
        simpa [sel_step, hc] using h
  | cancelBtn => simpa [sel_step] using h
  | escapeKey => simpa [sel_step] using h
  | chromeClose => simpa [sel_step] using h

/-- Helper: duplicate-freeness is an invariant of the wait loop. -/
lemma run_selection_nodup (cfg : SelConfig) :
    ∀ (events : List SelEvent) (st : SelState), st.selected.Nodup →
      (run_selection_state cfg st events).selected.Nodup := by
  intro events
  induction events with
  | nil => intro st hst; exact hst
  | cons e es ih =>
      intro st hst
      show (if st.slot.isSome || st.broken then st
            else run_selection_state cfg (sel_step cfg st e) es).selected.Nodup
      split
      · exact hst
      · exact ih _ (sel_step_nodup cfg st e hst)

/-- C7: starting from the empty set, every sequence of toggle and navigate
events in single-select mode keeps the selected set at size at most one,
and toggling item B after item A leaves exactly B selected; the reachable
selected sets are duplicate-free, and in multi-select mode a toggle is a
strict membership toggle — it flips the toggled index and leaves every
other index unchanged. -/
theorem selection_mode_invariant :
    (∀ (cfg : SelConfig) (events : List SelEvent), cfg.multiple = false →
        (run_selection_state cfg sel_init events).selected.length ≤ 1) ∧
    (∀ (s : List Nat) (a b : Nat),
        handle_toggle_selection false (handle_toggle_selection false s a) b = [b]) ∧
    (∀ (cfg : SelConfig) (events : List SelEvent),
        (run_selection_state cfg sel_init events).selected.Nodup) ∧
    (∀ (s : List Nat) (x : Nat), s.Nodup →
        (x ∈ handle_toggle_selection true s x ↔ x ∉ s) ∧
        (∀ y, y ≠ x → (y ∈ handle_toggle_selection true s x ↔ y ∈ s))) := by
  refine ⟨fun cfg events h => run_single_select_len cfg h events sel_init (by simp [sel_init]),
    fun s a b => rfl,
    fun cfg events => run_selection_nodup cfg events sel_init (by simp [sel_init]),
    ?_⟩
  intro s x hnd
  constructor
  · by_cases hx : x ∈ s
    · simp [handle_toggle_selection, hx, hnd.mem_erase_iff]
    · simp [handle_toggle_selection, hx]
  · intro y hy
    by_cases hx : x ∈ s
    · simp [handle_toggle_selection, hx, List.mem_erase_of_ne hy]
    · simp [handle_toggle_selection, hx, hy]

/-- Witness for C7: a concrete single-select run keeps at most one item
selected, and a concrete multi-select toggle flips index 1 while leaving
index 0 alone. -/
theorem selection_mode_invariant_witness :
    (run_selection_state ⟨false, false, ["a", "b"]⟩ sel_init
        [SelEvent.click 0, SelEvent.click 1]).selected.length ≤ 1 ∧
    (1 ∈ handle_toggle_selection true [0] 1 ↔ 1 ∉ ([0] : List Nat)) ∧
    (0 ∈ handle_toggle_selection true [0] 1 ↔ 0 ∈ ([0] : List Nat)) :=
  ⟨selection_mode_invariant.1 _ _ rfl,
   (selection_mode_invariant.2.2.2 [0] 1 (by decide)).1,
   (selection_mode_invariant.2.2.2 [0] 1 (by decide)).2 0 (by decide)⟩

/-- Table layout of a CPython set of small integers in which every element
is below the table width 8: element j occupies exactly slot j (its hash is
itself and the first probe lands on its own slot). -/
def canonical_table (xs : List Nat) : List (Option Nat) :=
  [if 0 ∈ xs then some 0 else none,
   if 1 ∈ xs then some 1 else none,
   if 2 ∈ xs then some 2 else none,
   if 3 ∈ xs then some 3 else none,
   if 4 ∈ xs then some 4 else none,
   if 5 ∈ xs then some 5 else none,
   if 6 ∈ xs then some 6 else none,
   if 7 ∈ xs then some 7 else none]

/-- Slot scan order of the members of `xs` below 8: ascending. -/
def ascending_members (xs : List Nat) : List Nat :=
  (List.range 8).filter (fun j => decide (j ∈ xs))

/-- Helper: unfolding of one probe step of `table_add`. -/
lemma table_add_eq (t : List (Option Nat)) (x : Nat) :
    table_add t x
      = match t.getD (x % 8) none with
        | none => t.set (x % 8) (some x)
        | some k =>
            if k = x then t
            else probe_insert x 63 ((5 * (x % 8) + 1 + x / 32) % 8) (x / 32) t := rfl

/-- Helper: the canonical table is the tabulation of slot membership. -/
lemma canonical_map (xs : List Nat) :
    canonical_table xs
      = (List.range 8).map (fun j => if j ∈ xs then some j else none) := rfl

/-- Helper: the canonical table of the empty history is the empty table. -/
lemma canonical_nil : canonical_table [] = empty_table := by
  simp [canonical_table, empty_table]

/-- Helper: reading a slot of the canonical table. -/
lemma canonical_getD (xs : List Nat) (j : Nat) (hj : j < 8) :
    (canonical_table xs).getD j none = if j ∈ xs then some j else none := by
  interval_cases j <;> rfl

/-- Helper: the canonical table only depends on membership below 8. -/
lemma canonical_congr (xs ys : List Nat)
    (h : ∀ j, j < 8 → (j ∈ xs ↔ j ∈ ys)) :
    canonical_table xs = canonical_table ys := by
  unfold canonical_table
  rw [if_congr (h 0 (by omega)) rfl rfl, if_congr (h 1 (by omega)) rfl rfl,
    if_congr (h 2 (by omega)) rfl rfl, if_congr (h 3 (by omega)) rfl rfl,
    if_congr (h 4 (by omega)) rfl rfl, if_congr (h 5 (by omega)) rfl rfl,
    if_congr (h 6 (by omega)) rfl rfl, if_congr (h 7 (by omega)) rfl rfl]

/-- Helper: recording an element already present changes nothing. -/
lemma canonical_append_mem (xs : List Nat) (x : Nat) (hm : x ∈ xs) :
    canonical_table (xs ++ [x]) = canonical_table xs := by
  apply canonical_congr
  intro j hj
  simp only [List.mem_append, List.mem_singleton]
  constructor
  · rintro (h | h)
    · exact h
    · exact h ▸ hm
  · exact Or.inl

/-- Helper: writing slot x of the canonical table records the element x. -/
lemma canonical_set (xs : List Nat) (x : Nat) (hx : x < 8) :
    (canonical_table xs).set x (some x) = canonical_table (xs ++ [x]) := by
  interval_cases x <;> simp [canonical_table, List.mem_append]

/-- Helper: adding an element below 8 to a canonical table lands on its own
slot, preserving the canonical layout. -/
lemma table_add_canonical (xs : List Nat) (x : Nat) (hx : x < 8) :
    table_add (canonical_table xs) x = canonical_table (xs ++ [x]) := by
  by_cases hm : x ∈ xs
  · have hslot : (canonical_table xs).getD x none = some x := by
      rw [canonical_getD xs x hx, if_pos hm]
    rw [table_add_eq, Nat.mod_eq_of_lt hx, hslot]
    show (if x = x then canonical_table xs
          else probe_insert x 63 ((5 * x + 1 + x / 32) % 8) (x / 32) (canonical_table xs))
        = canonical_table (xs ++ [x])
    rw [if_pos rfl, canonical_append_mem xs x hm]
  · have hslot : (canonical_table xs).getD x none = none := by
      rw [canonical_getD xs x hx, if_neg hm]
    rw [table_add_eq, Nat.mod_eq_of_lt hx, hslot]
    show (canonical_table xs).set x (some x) = canonical_table (xs ++ [x])
    exact canonical_set xs x hx

/-- Helper: inserting a history of elements below 8 builds the canonical
table. -/
lemma foldl_table_add_canonical :
    ∀ (xs acc : List Nat), (∀ i ∈ xs, i < 8) →
      xs.foldl table_add (canonical_table acc) = canonical_table (acc ++ xs) := by
  intro xs
  induction xs with
  | nil => intro acc _; simp
  | cons x xs ih =>
      intro acc h
      simp only [List.foldl_cons]
      rw [table_add_canonical acc x (h x (by simp))]
      rw [ih (acc ++ [x]) (fun i hi => h i (by simp [hi]))]
      simp

/-- Helper: the CPython table of a history of elements below 8 is the
canonical table. -/
lemma cpython_table_small (xs : List Nat) (h : ∀ i ∈ xs, i < 8) :
    cpython_table xs = canonical_table xs := by
  unfold cpython_table
  rw [← canonical_nil, foldl_table_add_canonical xs [] h]
  simp

/-- Helper: collapsing a membership tabulation into a filter. -/
lemma filterMap_if_mem (l : List Nat) (xs : List Nat) :
    (l.map (fun j => if j ∈ xs then some j else none)).filterMap id
      = l.filter (fun j => decide (j ∈ xs)) := by
  induction l with
  | nil => rfl
  | cons a l ih => by_cases h : a ∈ xs <;> simp [h, ih]

/-- Helper: iteration order of a small-element set is the ascending scan. -/
lemma iter_order_small (xs : List Nat) (h : ∀ i ∈ xs, i < 8) :
    cpython_iter_order xs = ascending_members xs := by
  unfold cpython_iter_order
  rw [cpython_table_small xs h, canonical_map, filterMap_if_mem]
  rfl

/-- Helper: the ascending scan is strictly sorted. -/
lemma ascending_sorted (xs : List Nat) :
    (ascending_members xs).Pairwise (· < ·) :=
  List.Pairwise.sublist (List.filter_sublist _) (List.pairwise_lt_range 8)

/-- Helper: for elements below 8 the ascending scan has the same members
as the history. -/
lemma ascending_mem (xs : List Nat) (h : ∀ i ∈ xs, i < 8) (j : Nat) :
    j ∈ ascending_members xs ↔ j ∈ xs := by
  simp only [ascending_members, List.mem_filter, List.mem_range,
    decide_eq_true_eq]
  exact ⟨fun hp => hp.2, fun hx => ⟨h j hx, hx⟩⟩

/-- C8 counterexample: with nine candidates, toggling index 8 and then
index 0 and confirming returns the items in CPython set-iteration order
[s8, s0] (index 8 hashes to slot 0, index 0 collides and probes to slot
1), not in the caller-provided candidate order [s0, s8]. -/
theorem selection_order_counterexample :
    dialog_selection (some "m")
        (some ["s0", "s1", "s2", "s3", "s4", "s5", "s6", "s7", "s8"]) true false
        [SelEvent.click 8, SelEvent.click 0, SelEvent.confirmBtn]
      = some (.ok (some ["s8", "s0"])) ∧
    (["s8", "s0"] : List String) ≠ ["s0", "s8"] :=
  ⟨rfl, by decide⟩

/-- C8 amended: the list returned at confirmation enumerates the selected
indices in CPython set-iteration order; when every selected index is below
the table width 8 this order is strictly ascending and contains exactly
the selected indices, so the caller-provided candidate order is preserved,
but for larger indices the hash-table order can differ from the candidate
order. -/
theorem selection_order_amended (selections : List String) (sel : List Nat)
    (h : ∀ i ∈ sel, i < 8) :
    cpython_iter_order sel = ascending_members sel ∧
    (cpython_iter_order sel).Pairwise (· < ·) ∧
    (∀ j, j ∈ cpython_iter_order sel ↔ j ∈ sel) ∧
    py_list_comp selections sel
      = (ascending_members sel).map (py_get selections) := by
  have hio := iter_order_small sel h
  refine ⟨hio, hio ▸ ascending_sorted sel, fun j => hio ▸ ascending_mem sel h j, ?_⟩
  rw [py_list_comp, hio]

/-- Witness for C8 amended: the selected indices 2 and 0 (both below 8)
come back in ascending candidate order. -/
theorem selection_order_amended_witness :
    (∀ i ∈ ([2, 0] : List Nat), i < 8) ∧
    cpython_iter_order [2, 0] = ascending_members [2, 0] ∧
    py_list_comp ["a", "b", "c"] [2, 0]
      = (ascending_members [2, 0]).map (py_get ["a", "b", "c"]) :=
  ⟨by decide, (selection_order_amended ["a", "b", "c"] [2, 0] (by decide)).1,
   (selection_order_amended ["a", "b", "c"] [2, 0] (by decide)).2.2.2⟩
